import Mathlib

/-!
Verification development for the `Grids` 3D scene extension
(`packages/studio-base/src/panels/ThreeDeeRender/renderables/Grids.ts` of the
foxglove-studio fork).

The TypeScript source is shallowly embedded:
* JS `number` is modelled as `ℚ` (the grid arithmetic here is field arithmetic
  on user-entered finite values; `Math.sin` and color parsing are kept as
  abstract function parameters, bundled in `Externals`, because their exact
  float/string behaviour is outside the arithmetic fragment embedded here);
* the mutable `renderer.config.layers` record and the `renderables` `Map` are
  modelled as association lists with JS object/Map key semantics;
* methods that mutate the extension state become functions
  `GridsState → GridsState × List Effect`, where `Effect` records the
  `dispose()` calls made on a renderable's owned sub-objects.
-/

namespace Grids

/-- RGBA color record (`{ r, g, b, a }` with normalized channels). -/
structure Rgba where
  r : ℚ
  g : ℚ
  b : ℚ
  a : ℚ
deriving DecidableEq, Repr

/-- `Vector3` of `../ros` (`{ x, y, z }`). -/
structure Vector3 where
  x : ℚ
  y : ℚ
  z : ℚ
deriving DecidableEq, Repr

/-- Quaternion (`{ x, y, z, w }`). -/
structure Quaternion where
  x : ℚ
  y : ℚ
  z : ℚ
  w : ℚ
deriving DecidableEq, Repr

/-- A 3-tuple `[number, number, number]` such as `gridPosition`. -/
abbrev Vec3 : Type := ℚ × ℚ × ℚ

/-- A 2-tuple `[number, number]` such as `rangeMarkerPosition`. -/
abbrev Vec2 : Type := ℚ × ℚ

/-- ROS-style pose: position plus orientation. -/
structure Pose where
  position : Vector3
  orientation : Quaternion
deriving DecidableEq, Repr

/-- `makePose()` of `../transforms`: identity pose. -/
def makePose : Pose := ⟨⟨0, 0, 0⟩, ⟨0, 0, 0, 1⟩⟩

/-- ROS time (`{ sec, nsec }`). -/
structure Time where
  sec : ℤ
  nsec : ℤ
deriving DecidableEq, Repr

/-- `TIME_ZERO` of `../ros`. -/
def TIME_ZERO : Time := ⟨0, 0⟩

/-- ROS message header. -/
structure Header where
  frame_id : String
  stamp : Time
deriving DecidableEq, Repr

/-- `MarkerType.LINE_LIST` (visualization_msgs enum value). -/
def MarkerTypeLineList : ℕ := 5

/-- `MarkerAction.ADD` (visualization_msgs enum value). -/
def MarkerActionAdd : ℕ := 0

/-- The `Marker` record of `../ros`, as populated by `createLineList`. -/
structure Marker where
  header : Header
  ns : String
  id : ℤ
  type : ℕ
  action : ℕ
  pose : Pose
  scale : Vector3
  color : Rgba
  lifetime : Time
  frame_locked : Bool
  points : List Vector3
  colors : List Rgba
  text : String
  mesh_resource : String
  mesh_use_embedded_materials : Bool
deriving DecidableEq, Repr

/-- A `TextPrimitive` of `@foxglove/schemas`, as populated by `createTexts`. -/
structure TextPrimitive where
  pose : Pose
  billboard : Bool
  font_size : ℚ
  scale_invariant : Bool
  color : Rgba
  text : String
deriving DecidableEq, Repr

/-- The `SceneEntity` record returned by `createTexts`.  The primitive lists
other than `texts` are always empty there; they are kept as `List Unit`
placeholders since their element types play no role. -/
structure SceneEntity where
  timestamp : Time
  frame_id : String
  id : String
  lifetime : Time
  frame_locked : Bool
  metadata : List Unit
  arrows : List Unit
  cubes : List Unit
  spheres : List Unit
  cylinders : List Unit
  lines : List Unit
  triangles : List Unit
  texts : List TextPrimitive
  models : List Unit
deriving DecidableEq, Repr

/-- `LayerSettingsGrid` (fully populated settings record). -/
structure LayerSettingsGrid where
  visible : Bool
  frameLocked : Bool
  label : String
  instanceId : String
  layerId : String
  frameId : Option String
  gridSize : ℚ
  gridDivisions : ℚ
  gridLineWidth : ℚ
  gridColor : String
  gridPosition : Vec3
  gridRotation : Vec3
  rangeMarkerVisible : Bool
  rangeMarkerFollowCamera : Bool
  rangeMarkerFollowCameraNudge : Vec2
  rangeMarkerPosition : Vec2
  rangeMarkerFontSize : ℚ
  rangeMarkerFontColor : String
deriving DecidableEq, Repr

def LAYER_ID : String := "foxglove.Grid"
def DEFAULT_GRID_SIZE : ℚ := 10
def DEFAULT_GRID_DIVISIONS : ℚ := 10
def DEFAULT_GRID_LINE_WIDTH : ℚ := 1
def DEFAULT_GRID_COLOR : String := "#248eff"
def DEFAULT_RANGE_MARKER_VISIBLE : Bool := false
def DEFAULT_RANGE_MARKER_FOLLOW_CAMERA : Bool := false
def DEFAULT_RANGE_MARKER_FOLLOW_CAMERA_NUDGE : Vec2 := (0, 0)
def DEFAULT_RANGE_MARKER_POSITION : Vec2 := (-DEFAULT_GRID_SIZE, -DEFAULT_GRID_SIZE)
def DEFAULT_RANGE_MARKER_FONT_SIZE : ℚ := 20
def DEFAULT_RANGE_MARKER_FONT_COLOR : String := "#248eff"

/-- `MAX_DIVISIONS = 4096` ("The JS heap size is a limiting factor"). -/
def MAX_DIVISIONS : ℚ := 4096

/-- `DEFAULT_SETTINGS` of the Grids source. -/
def DEFAULT_SETTINGS : LayerSettingsGrid :=
  { visible := true
    frameLocked := true
    label := "Grid"
    instanceId := "invalid"
    layerId := LAYER_ID
    frameId := none
    gridSize := DEFAULT_GRID_SIZE
    gridDivisions := DEFAULT_GRID_DIVISIONS
    gridLineWidth := DEFAULT_GRID_LINE_WIDTH
    gridColor := DEFAULT_GRID_COLOR
    gridPosition := (0, 0, 0)
    gridRotation := (0, 0, 0)
    rangeMarkerVisible := DEFAULT_RANGE_MARKER_VISIBLE
    rangeMarkerFollowCamera := DEFAULT_RANGE_MARKER_FOLLOW_CAMERA
    rangeMarkerFollowCameraNudge := DEFAULT_RANGE_MARKER_FOLLOW_CAMERA_NUDGE
    rangeMarkerPosition := DEFAULT_RANGE_MARKER_POSITION
    rangeMarkerFontSize := DEFAULT_RANGE_MARKER_FONT_SIZE
    rangeMarkerFontColor := DEFAULT_RANGE_MARKER_FONT_COLOR }

/-- The number of iterations of the JS loop `for (let i = 0; i <= bound; i++)`
when `bound` is a finite number: `⌊bound⌋ + 1` clamped below at `0`. -/
def jsLoopCount (bound : ℚ) : ℕ := (⌊bound⌋ + 1).toNat

/-- `Math.round`-style rounding used to model `Number.prototype.toFixed(0)`:
round to the nearest integer, ties away from zero. -/
def jsRoundHalfAwayFromZero (q : ℚ) : ℤ :=
  if 0 ≤ q then ⌊q + 1 / 2⌋ else -⌊-q + 1 / 2⌋

/-- `String(x.toFixed(0))`: decimal rendering of the rounded value. -/
def toFixed0 (q : ℚ) : String := toString (jsRoundHalfAwayFromZero q)

/-- The point list built by the loop in `createLineList`:
`for (let i = 0; i <= divisions; i++)` pushes four points per iteration. -/
def createLineListPoints (size divisions : ℚ) : List Vector3 :=
  let step := size / divisions
  let halfSize := size / 2
  (List.range (jsLoopCount divisions)).flatMap fun i =>
    let x := -halfSize + i * step
    [⟨x, -halfSize, 0⟩, ⟨x, halfSize, 0⟩, ⟨-halfSize, x, 0⟩, ⟨halfSize, x, 0⟩]

/-- `createLineList(settings)`.  `stringToRgba` (from `../color`, not part of
the sampled sources) is passed as an abstract parameter: it receives the
default `{r:1,g:1,b:1,a:1}` and the configured color string. -/
def createLineList (stringToRgba : Rgba → String → Rgba)
    (settings : LayerSettingsGrid) : Marker :=
  let color := stringToRgba ⟨1, 1, 1, 1⟩ settings.gridColor
  { header := { frame_id := "", stamp := TIME_ZERO }
    ns := ""
    id := 0
    type := MarkerTypeLineList
    action := MarkerActionAdd
    pose := makePose
    scale := ⟨settings.gridLineWidth, 1, 1⟩
    color := color
    lifetime := TIME_ZERO
    frame_locked := true
    points := createLineListPoints settings.gridSize settings.gridDivisions
    colors := []
    text := ""
    mesh_resource := ""
    mesh_use_embedded_materials := false }

/-- The `texts` list built by the loop in `createTexts`: two labels per grid
line when `rangeMarkerVisible`, otherwise empty. -/
def createTextsList (stringToRgba : Rgba → String → Rgba)
    (s : LayerSettingsGrid) : List TextPrimitive :=
  if s.rangeMarkerVisible then
    let color := stringToRgba ⟨1, 1, 1, 1⟩ s.rangeMarkerFontColor
    let step := s.gridSize / s.gridDivisions
    let halfSize := s.gridSize / 2
    (List.range (jsLoopCount s.gridDivisions)).flatMap fun i =>
      let relDistance := -halfSize + i * step
      let point : Vec2 := (relDistance + s.gridPosition.1, relDistance + s.gridPosition.2.1)
      [{ pose := { position := ⟨relDistance, -s.rangeMarkerPosition.2 - s.gridPosition.2.1, 0⟩
                   orientation := ⟨0, 0, 0, 1⟩ }
         billboard := true
         font_size := s.rangeMarkerFontSize
         scale_invariant := true
         color := color
         text := toFixed0 point.1 },
       { pose := { position := ⟨s.rangeMarkerPosition.1 - s.gridPosition.1, relDistance, 0⟩
                   orientation := ⟨0, 0, 0, 1⟩ }
         billboard := true
         font_size := s.rangeMarkerFontSize
         scale_invariant := true
         color := color
         text := toFixed0 point.2 }]
  else []

/-- `createTexts(settings)`: the `SceneEntity` wrapping `createTextsList`. -/
def createTexts (stringToRgba : Rgba → String → Rgba)
    (s : LayerSettingsGrid) : SceneEntity :=
  { timestamp := TIME_ZERO
    frame_id := ""
    id := "RANGE_MARKERS"
    lifetime := TIME_ZERO
    frame_locked := true
    metadata := []
    arrows := []
    cubes := []
    spheres := []
    cylinders := []
    lines := []
    triangles := []
    texts := createTextsList stringToRgba s
    models := [] }

/-- `Partial<LayerSettingsGrid>` as stored in `renderer.config.layers`: every
field optional (absent fields fall back to `DEFAULT_SETTINGS` on merge).
`order` comes from the underlying `CustomLayerSettings`. -/
structure GridLayerPatch where
  visible : Option Bool := none
  frameLocked : Option Bool := none
  label : Option String := none
  instanceId : Option String := none
  layerId : Option String := none
  order : Option ℚ := none
  frameId : Option String := none
  gridSize : Option ℚ := none
  gridDivisions : Option ℚ := none
  gridLineWidth : Option ℚ := none
  gridColor : Option String := none
  gridPosition : Option Vec3 := none
  gridRotation : Option Vec3 := none
  rangeMarkerVisible : Option Bool := none
  rangeMarkerFollowCamera : Option Bool := none
  rangeMarkerFollowCameraNudge : Option Vec2 := none
  rangeMarkerPosition : Option Vec2 := none
  rangeMarkerFontSize : Option ℚ := none
  rangeMarkerFontColor : Option String := none
deriving DecidableEq, Repr

/-- A patch with no fields set. -/
def emptyPatch : GridLayerPatch := {}

/-- The spread merge `{ ...DEFAULT_SETTINGS, ...settings }` in `#updateGrid`:
each field present in the patch wins, otherwise the default applies. -/
def mergeSettings (p : GridLayerPatch) : LayerSettingsGrid :=
  { visible := p.visible.getD DEFAULT_SETTINGS.visible
    frameLocked := p.frameLocked.getD DEFAULT_SETTINGS.frameLocked
    label := p.label.getD DEFAULT_SETTINGS.label
    instanceId := p.instanceId.getD DEFAULT_SETTINGS.instanceId
    layerId := p.layerId.getD DEFAULT_SETTINGS.layerId
    frameId := p.frameId
    gridSize := p.gridSize.getD DEFAULT_SETTINGS.gridSize
    gridDivisions := p.gridDivisions.getD DEFAULT_SETTINGS.gridDivisions
    gridLineWidth := p.gridLineWidth.getD DEFAULT_SETTINGS.gridLineWidth
    gridColor := p.gridColor.getD DEFAULT_SETTINGS.gridColor
    gridPosition := p.gridPosition.getD DEFAULT_SETTINGS.gridPosition
    gridRotation := p.gridRotation.getD DEFAULT_SETTINGS.gridRotation
    rangeMarkerVisible := p.rangeMarkerVisible.getD DEFAULT_SETTINGS.rangeMarkerVisible
    rangeMarkerFollowCamera :=
      p.rangeMarkerFollowCamera.getD DEFAULT_SETTINGS.rangeMarkerFollowCamera
    rangeMarkerFollowCameraNudge :=
      p.rangeMarkerFollowCameraNudge.getD DEFAULT_SETTINGS.rangeMarkerFollowCameraNudge
    rangeMarkerPosition := p.rangeMarkerPosition.getD DEFAULT_SETTINGS.rangeMarkerPosition
    rangeMarkerFontSize := p.rangeMarkerFontSize.getD DEFAULT_SETTINGS.rangeMarkerFontSize
    rangeMarkerFontColor :=
      p.rangeMarkerFontColor.getD DEFAULT_SETTINGS.rangeMarkerFontColor }

/-- Lookup in a string-keyed association list (JS object / `Map` read). -/
def lookupKey {α : Type} (k : String) : List (String × α) → Option α
  | [] => none
  | (k₂, v) :: rest => if k₂ = k then some v else lookupKey k rest

/-- Write in a string-keyed association list (JS object write / `Map.set`):
replace the first binding of the key, or append a fresh binding. -/
def setKey {α : Type} (k : String) (v : α) : List (String × α) → List (String × α)
  | [] => [(k, v)]
  | (k₂, v₂) :: rest =>
      if k₂ = k then (k, v) :: rest else (k₂, v₂) :: setKey k v rest

/-- Key removal (JS `delete obj[k]` / `Map.delete`). -/
def eraseKey {α : Type} (k : String) : List (String × α) → List (String × α)
  | [] => []
  | (k₂, v₂) :: rest => if k₂ = k then rest else (k₂, v₂) :: eraseKey k rest

/-- The slice of `renderer.getCameraState()` read by
`#nudgeRangeMarkersIntoView`. -/
structure CameraState where
  distance : ℚ
  fovy : ℚ
  targetOffset : Vec3
deriving DecidableEq, Repr

/-- External collaborators imported by the Grids source from modules outside
the sampled sources, kept abstract:
`stringToRgba` (`../color`), `xyzrpyToPose` (`../transforms`),
`vec3TupleApproxEquals` (`../math`, epsilon-approximate tuple equality), and
`Math.sin` (float builtin). -/
structure Externals where
  stringToRgba : Rgba → String → Rgba
  xyzrpyToPose : Vec3 → Vec3 → Pose
  vec3TupleApproxEquals : Vec3 → Vec3 → Bool
  sinFn : ℚ → ℚ

/-- `#nudgeRangeMarkersIntoView(settings)`: with no camera state the stored
marker position is returned; otherwise the pairwise larger of the
viewport-derived bound and the grid-derived bound.  `renderSize` is the
drawing-buffer size `(width, height)`. -/
def nudgeRangeMarkersIntoView (sinFn : ℚ → ℚ) (cameraState : Option CameraState)
    (renderSize : Vec2) (settings : LayerSettingsGrid) : Vec2 :=
  match cameraState with
  | none => settings.rangeMarkerPosition
  | some cam =>
    let aspectRatio := renderSize.1 / renderSize.2
    let fovAtGroundplane := sinFn (cam.fovy / 2) * cam.distance
    let followNudge := settings.rangeMarkerFollowCameraNudge
    let viewportBounds : Vec2 :=
      (fovAtGroundplane + cam.targetOffset.1 + followNudge.1,
       fovAtGroundplane * aspectRatio - cam.targetOffset.2.1 + followNudge.2)
    let gridNudge := 0.5 * settings.gridSize / settings.gridDivisions
    let gridBounds : Vec2 :=
      (settings.gridPosition.1 - settings.gridSize / 2 - gridNudge,
       -settings.gridPosition.2.1 - settings.gridSize / 2 - gridNudge)
    (if viewportBounds.1 > gridBounds.1 then viewportBounds.1 else gridBounds.1,
     if viewportBounds.2 > gridBounds.2 then viewportBounds.2 else gridBounds.2)

/-- The observable state of one `GridRenderable`: its `userData` settings and
pose, plus the current contents of the two exclusively owned sub-objects
(`RenderableLineList` holding a `Marker`, `RenderableTexts` holding a
`SceneEntity`).  Constant bookkeeping fields (`receiveTime`, `messageTime`,
`settingsPath`) are elided. -/
structure GridRenderableState where
  settings : LayerSettingsGrid
  pose : Pose
  frameId : String
  lineListName : String
  lineList : Marker
  textsName : String
  texts : SceneEntity
deriving DecidableEq, Repr

/-- Resource effects emitted by the lifecycle code: `dispose()` calls on a
renderable's owned sub-objects. -/
inductive Effect where
  | disposeLineList (instanceId : String)
  | disposeTexts (instanceId : String)
deriving DecidableEq, Repr

/-- The mutable state touched by the Grids extension: the shared
`renderer.config.layers` record (values may be explicitly `undefined`), the
instance-id-to-renderable `Map`, and the ids added to the scene graph via
`this.add`. -/
structure GridsState where
  layers : List (String × Option GridLayerPatch)
  renderables : List (String × GridRenderableState)
  scene : List String
deriving DecidableEq, Repr

/-- `#createRenderable(instanceId, settings)`: builds the renderable with its
line list (named `instanceId:LINE_LIST`), its texts object (updated with name
`instanceId:TEXTS`), an identity pose and an empty `frameId` (filled in by
`startFrame`). -/
def createRenderable (ext : Externals) (instanceId : String)
    (settings : LayerSettingsGrid) : GridRenderableState :=
  { settings := settings
    pose := makePose
    frameId := ""
    lineListName := instanceId ++ ":LINE_LIST"
    lineList := createLineList ext.stringToRgba settings
    textsName := instanceId ++ ":TEXTS"
    texts := createTexts ext.stringToRgba settings }

/-- The settings record the non-delete branch of `#updateGrid` ends up
holding and generating geometry from: the patch merged over the defaults,
with `rangeMarkerPosition` overwritten by `#nudgeRangeMarkersIntoView` when
`rangeMarkerFollowCamera` is set (in the source this mutation happens on the
settings object already stored in `userData`, so the stored record holds the
nudged position). -/
def effectiveSettings (ext : Externals) (cameraState : Option CameraState)
    (renderSize : Vec2) (patch : GridLayerPatch) : LayerSettingsGrid :=
  let newSettings := mergeSettings patch
  if newSettings.rangeMarkerFollowCamera then
    { newSettings with rangeMarkerPosition :=
        nudgeRangeMarkersIntoView ext.sinFn cameraState renderSize newSettings }
  else newSettings

/-- The renderable produced by the non-delete branch of `#updateGrid`, built
from the previously stored renderable when one exists (`found`), otherwise
from `#createRenderable` (whose pose is immediately set from the grid
position/rotation).  Both owned sub-objects are updated in place with
freshly generated geometry; the pose is recomputed exactly when position or
rotation fails the approximate-equality check against the previous
settings. -/
def updatedRenderable (ext : Externals) (cameraState : Option CameraState)
    (renderSize : Vec2) (instanceId : String) (patch : GridLayerPatch)
    (found : Option GridRenderableState) : GridRenderableState :=
  let newSettings := mergeSettings patch
  let r0 : GridRenderableState :=
    match found with
    | some r => r
    | none =>
        { createRenderable ext instanceId newSettings with
          pose := ext.xyzrpyToPose newSettings.gridPosition newSettings.gridRotation }
  let prevSettings := r0.settings
  let newSettings2 := effectiveSettings ext cameraState renderSize patch
  let lineList := createLineList ext.stringToRgba newSettings2
  let texts := createTexts ext.stringToRgba newSettings2
  let pose :=
    if !ext.vec3TupleApproxEquals newSettings2.gridPosition prevSettings.gridPosition ||
       !ext.vec3TupleApproxEquals newSettings2.gridRotation prevSettings.gridRotation then
      ext.xyzrpyToPose newSettings2.gridPosition newSettings2.gridRotation
    else r0.pose
  { r0 with settings := newSettings2
            lineList := lineList
            textsName := instanceId ++ ":TEXTS"
            texts := texts
            pose := pose }

/-- `#updateGrid(instanceId, settings)`.

`settings == undefined` deletes: dispose both sub-objects, remove from the
scene and from the map (a no-op when the id is unknown).  Otherwise the
stored renderable (created on first sight) is replaced by
`updatedRenderable` and a fresh id is added to the scene. -/
def updateGrid (ext : Externals) (cameraState : Option CameraState)
    (renderSize : Vec2) (instanceId : String)
    (settings : Option GridLayerPatch) (st : GridsState) :
    GridsState × List Effect :=
  match settings with
  | none =>
    match lookupKey instanceId st.renderables with
    | none => (st, [])
    | some _ =>
        ({ st with renderables := eraseKey instanceId st.renderables
                   scene := st.scene.erase instanceId },
         [Effect.disposeLineList instanceId, Effect.disposeTexts instanceId])
  | some patch =>
    let found := lookupKey instanceId st.renderables
    let r1 := updatedRenderable ext cameraState renderSize instanceId patch found
    let scene0 := match found with
      | some _ => st.scene
      | none => instanceId :: st.scene
    ({ st with renderables := setKey instanceId r1 st.renderables, scene := scene0 }, [])

/-- A settings value carried by an `update` settings-tree action. -/
inductive SettingValue where
  | boolV (b : Bool)
  | numV (q : ℚ)
  | strV (s : String)
  | vec2V (v : Vec2)
  | vec3V (v : Vec3)
  | noneV
deriving DecidableEq, Repr

/-- Modelled from the spec: `SceneExtension.saveSetting` (outside the sampled
sources) merges a single field into one instance's stored settings record
("merge single field into that instance's settings, persist").  A write whose
value type does not fit the field is not representable in this typed model
and leaves the record unchanged (such writes cannot be produced by the
settings UI). -/
def setConfigField (p : GridLayerPatch) (field : String) (v : SettingValue) :
    GridLayerPatch :=
  match field, v with
  | "visible", SettingValue.boolV b => { p with visible := some b }
  | "label", SettingValue.strV s => { p with label := some s }
  | "frameId", SettingValue.strV s => { p with frameId := some s }
  | "frameId", SettingValue.noneV => { p with frameId := none }
  | "gridSize", SettingValue.numV q => { p with gridSize := some q }
  | "gridDivisions", SettingValue.numV q => { p with gridDivisions := some q }
  | "gridLineWidth", SettingValue.numV q => { p with gridLineWidth := some q }
  | "gridColor", SettingValue.strV s => { p with gridColor := some s }
  | "gridPosition", SettingValue.vec3V u => { p with gridPosition := some u }
  | "gridRotation", SettingValue.vec3V u => { p with gridRotation := some u }
  | "rangeMarkerVisible", SettingValue.boolV b => { p with rangeMarkerVisible := some b }
  | "rangeMarkerFollowCamera", SettingValue.boolV b =>
      { p with rangeMarkerFollowCamera := some b }
  | "rangeMarkerFollowCameraNudge", SettingValue.vec2V u =>
      { p with rangeMarkerFollowCameraNudge := some u }
  | "rangeMarkerPosition", SettingValue.vec2V u => { p with rangeMarkerPosition := some u }
  | "rangeMarkerFontSize", SettingValue.numV q => { p with rangeMarkerFontSize := some q }
  | "rangeMarkerFontColor", SettingValue.strV s => { p with rangeMarkerFontColor := some s }
  | _, _ => p

/-- The stored patch for one instance id, treating a missing binding and an
explicitly `undefined` binding alike (JS `layers[instanceId]`). -/
def layerAt (layers : List (String × Option GridLayerPatch)) (id : String) :
    Option GridLayerPatch :=
  match lookupKey id layers with
  | some (some p) => some p
  | _ => none

/-- Modelled from the spec: the effect of `this.saveSetting(path, value)` on
the `layers` record for a three-segment path `["layers", instanceId, field]`
(`_.set` creates the instance record when absent).  Paths rooted elsewhere in
the config do not touch `layers` and are modelled as the identity on it. -/
def saveSettingLayers (path : List String) (v : SettingValue)
    (layers : List (String × Option GridLayerPatch)) :
    List (String × Option GridLayerPatch) :=
  match path with
  | ["layers", id, field] =>
      let cur := (layerAt layers id).getD emptyPatch
      setKey id (some (setConfigField cur field v)) layers
  | _ => layers

/-- A `SettingsTreeAction`: either a field update or a node action. -/
inductive SettingsTreeAction where
  | update (path : List String) (value : SettingValue)
  | performNodeAction (id : String) (path : List String)
deriving DecidableEq, Repr

/-- `handleSettingsAction(action)`.  A `perform-node-action` is handled only
for two-segment paths with id `"delete"`: the instance is removed from the
config and its renderable deleted via `#updateGrid(instanceId, undefined)`.
An `update` is handled only for three-segment paths: the value is persisted
via `saveSetting` and the grid rebuilt from the stored settings.  (The pure
UI refreshes `updateSettingsTree` / `updateCustomLayersCount` are elided.) -/
def handleSettingsAction (ext : Externals) (cameraState : Option CameraState)
    (renderSize : Vec2) (action : SettingsTreeAction) (st : GridsState) :
    GridsState × List Effect :=
  match action with
  | SettingsTreeAction.performNodeAction actionId path =>
      if path.length = 2 ∧ actionId = "delete" then
        let instanceId := path.getD 1 ""
        let st1 := { st with layers := eraseKey instanceId st.layers }
        updateGrid ext cameraState renderSize instanceId none st1
      else (st, [])
  | SettingsTreeAction.update path value =>
      if path.length ≠ 3 then (st, [])
      else
        let st1 := { st with layers := saveSettingLayers path value st.layers }
        let instanceId := path.getD 1 ""
        updateGrid ext cameraState renderSize instanceId (layerAt st1.layers instanceId) st1

/-- The `RangeMarkersConfig` event payload slice read by the handler. -/
structure RangeMarkersConfig where
  followCamera : Bool
deriving DecidableEq, Repr

/-- One iteration of the `#handleRangeMarkersConfigChanged` loop body for a
grid layer: three `saveSetting` writes followed by `#updateGrid` on the
freshly stored settings. -/
def rangeMarkersStep (ext : Externals) (cameraState : Option CameraState)
    (renderSize : Vec2) (followCamera : Bool) (instanceId : String)
    (st : GridsState) : GridsState × List Effect :=
  let layers1 :=
    saveSettingLayers ["layers", instanceId, "rangeMarkerVisible"]
      (SettingValue.boolV true) st.layers
  let layers2 :=
    saveSettingLayers ["layers", instanceId, "rangeMarkerFollowCameraNudge"]
      (SettingValue.vec2V (0, 0)) layers1
  let layers3 :=
    saveSettingLayers ["layers", instanceId, "rangeMarkerFollowCamera"]
      (SettingValue.boolV followCamera) layers2
  let st1 := { st with layers := layers3 }
  updateGrid ext cameraState renderSize instanceId (layerAt layers3 instanceId) st1

/-- The `for (const [instanceId, entry] of Object.entries(...))` loop of
`#handleRangeMarkersConfigChanged`, iterating over the snapshot of the
entries taken when the handler fired and skipping non-grid layers. -/
def rangeMarkersLoop (ext : Externals) (cameraState : Option CameraState)
    (renderSize : Vec2) (followCamera : Bool) :
    List (String × Option GridLayerPatch) → GridsState → GridsState × List Effect
  | [], st => (st, [])
  | (instanceId, entry) :: rest, st =>
    match entry with
    | some e =>
        if e.layerId = some LAYER_ID then
          let step := rangeMarkersStep ext cameraState renderSize followCamera instanceId st
          let restResult := rangeMarkersLoop ext cameraState renderSize followCamera rest step.1
          (restResult.1, step.2 ++ restResult.2)
        else rangeMarkersLoop ext cameraState renderSize followCamera rest st
    | none => rangeMarkersLoop ext cameraState renderSize followCamera rest st

/-- `#handleRangeMarkersConfigChanged(rangeMarkersConfig)`. -/
def handleRangeMarkersConfigChanged (ext : Externals)
    (cameraState : Option CameraState) (renderSize : Vec2)
    (rangeMarkersConfig : RangeMarkersConfig) (st : GridsState) :
    GridsState × List Effect :=
  rangeMarkersLoop ext cameraState renderSize rangeMarkersConfig.followCamera st.layers st

/-- `Grids.removeAllRenderables()`: the override has an empty body. -/
def removeAllRenderables (st : GridsState) : GridsState × List Effect := (st, [])

/-- The `min` declared on the `gridDivisions` number field in
`Grids.settingsNodes`. -/
def gridDivisionsFieldMin : ℚ := 1

/-- The `max` declared on the `gridDivisions` number field in
`Grids.settingsNodes` (`MAX_DIVISIONS`). -/
def gridDivisionsFieldMax : ℚ := MAX_DIVISIONS

/-- Modelled from the spec: the settings editor clamps a numeric field's
input to the `[min, max]` declared on the field before it is saved ("division
count of 0 is rejected upstream by the settings clamp (minimum 1)"); the
clamp itself lives outside the sampled sources. -/
def clampFieldValue (lo hi v : ℚ) : ℚ := max lo (min hi v)

/-- A stored patch whose `gridDivisions` field, when present, already lies in
the clamped range `[1, 4096]`. -/
def divisionsInRange (p : GridLayerPatch) : Prop :=
  ∀ v, p.gridDivisions = some v → 1 ≤ v ∧ v ≤ 4096

instance (p : GridLayerPatch) : Decidable (divisionsInRange p) := by
  unfold divisionsInRange
  match h : p.gridDivisions with
  | none => exact isTrue (by intro v hv; cases hv)
  | some q =>
      exact decidable_of_iff (1 ≤ q ∧ q ≤ 4096)
        ⟨fun hq v hv => by cases hv; exact hq, fun hall => hall q rfl⟩

/-- Concrete instantiation of the abstract externals, used for witnesses:
exact tuple equality for the approximate check, a pose built directly from
the tuples, color parsing that keeps the default, and the zero function for
`sin`. -/
def extWitness : Externals :=
  { stringToRgba := fun c _ => c
    xyzrpyToPose := fun p r => ⟨⟨p.1, p.2.1, p.2.2⟩, ⟨r.1, r.2.1, r.2.2, 1⟩⟩
    vec3TupleApproxEquals := fun a b => decide (a = b)
    sinFn := fun _ => 0 }

/-- The settings used for the concrete camera-follow check of §8 of the
spec: default grid (size 10, 10 divisions, nudge `[0,0]`, position origin)
with camera-follow enabled. -/
def c4Settings : LayerSettingsGrid :=
  { DEFAULT_SETTINGS with rangeMarkerFollowCamera := true }

/-- A settings record with the range markers visible but a negative division
count: the generator loop then runs zero times. -/
def c3Settings : LayerSettingsGrid :=
  { DEFAULT_SETTINGS with rangeMarkerVisible := true, gridDivisions := -1 }

/-- Default settings with the range markers switched on (division count 10),
used to witness the label-count statement. -/
def c3WitnessSettings : LayerSettingsGrid :=
  { DEFAULT_SETTINGS with rangeMarkerVisible := true }

/-- A grid-layer patch and state used in witnesses: one stored grid
layer. -/
def gridPatchWitness : GridLayerPatch := { emptyPatch with layerId := some LAYER_ID }

/-- A state holding one stored grid layer and one live renderable for it. -/
def stWitness : GridsState :=
  { layers := [("g", some gridPatchWitness)]
    renderables := [("g", createRenderable extWitness "g" DEFAULT_SETTINGS)]
    scene := ["g"] }

section MapLemmas

variable {α : Type}

theorem lookupKey_setKey_self (k : String) (v : α) (l : List (String × α)) :
    lookupKey k (setKey k v l) = some v := by
  induction l with
  | nil => simp [setKey, lookupKey]
  | cons hd tl ih =>
      obtain ⟨k₂, v₂⟩ := hd
      by_cases h : k₂ = k <;> simp [setKey, lookupKey, h, ih]

theorem lookupKey_setKey_ne {k k₂ : String} (h : k ≠ k₂) (v : α) (l : List (String × α)) :
    lookupKey k₂ (setKey k v l) = lookupKey k₂ l := by
  induction l with
  | nil => simp [setKey, lookupKey, h]
  | cons hd tl ih =>
      obtain ⟨k₃, v₃⟩ := hd
      by_cases h₃ : k₃ = k
      · subst h₃; simp [setKey, lookupKey, h]
      · simp [setKey, lookupKey, h₃, ih]

end MapLemmas

theorem layerAt_saveSetting_self (layers : List (String × Option GridLayerPatch))
    (id field : String) (v : SettingValue) :
    layerAt (saveSettingLayers ["layers", id, field] v layers) id =
      some (setConfigField ((layerAt layers id).getD emptyPatch) field v) := by
  simp only [saveSettingLayers, layerAt, lookupKey_setKey_self]

theorem layerAt_saveSetting_ne {id id₂ : String} (h : id ≠ id₂)
    (layers : List (String × Option GridLayerPatch)) (field : String) (v : SettingValue) :
    layerAt (saveSettingLayers ["layers", id, field] v layers) id₂ = layerAt layers id₂ := by
  simp only [saveSettingLayers, layerAt, lookupKey_setKey_ne h]

theorem updateGrid_layers (ext : Externals) (cam : Option CameraState) (rs : Vec2)
    (id : String) (s : Option GridLayerPatch) (st : GridsState) :
    ((updateGrid ext cam rs id s st).1).layers = st.layers := by
  unfold updateGrid
  cases s with
  | none => cases lookupKey id st.renderables <;> rfl
  | some p => rfl

theorem updateGrid_some_lookup (ext : Externals) (cam : Option CameraState) (rs : Vec2)
    (id : String) (p : GridLayerPatch) (st : GridsState) :
    lookupKey id ((updateGrid ext cam rs id (some p) st).1).renderables =
      some (updatedRenderable ext cam rs id p (lookupKey id st.renderables)) :=
  lookupKey_setKey_self ..

theorem updatedRenderable_settings (ext : Externals) (cam : Option CameraState)
    (rs : Vec2) (id : String) (p : GridLayerPatch) (found : Option GridRenderableState) :
    (updatedRenderable ext cam rs id p found).settings = effectiveSettings ext cam rs p := rfl

theorem updatedRenderable_lineList (ext : Externals) (cam : Option CameraState)
    (rs : Vec2) (id : String) (p : GridLayerPatch) (found : Option GridRenderableState) :
    (updatedRenderable ext cam rs id p found).lineList =
      createLineList ext.stringToRgba (effectiveSettings ext cam rs p) := rfl

theorem updatedRenderable_texts (ext : Externals) (cam : Option CameraState)
    (rs : Vec2) (id : String) (p : GridLayerPatch) (found : Option GridRenderableState) :
    (updatedRenderable ext cam rs id p found).texts =
      createTexts ext.stringToRgba (effectiveSettings ext cam rs p) := rfl

theorem updatedRenderable_pose_existing (ext : Externals) (cam : Option CameraState)
    (rs : Vec2) (id : String) (p : GridLayerPatch) (r : GridRenderableState) :
    (updatedRenderable ext cam rs id p (some r)).pose =
      if !ext.vec3TupleApproxEquals (effectiveSettings ext cam rs p).gridPosition
            r.settings.gridPosition ||
         !ext.vec3TupleApproxEquals (effectiveSettings ext cam rs p).gridRotation
            r.settings.gridRotation then
        ext.xyzrpyToPose (effectiveSettings ext cam rs p).gridPosition
          (effectiveSettings ext cam rs p).gridRotation
      else r.pose := rfl

theorem effectiveSettings_gridDivisions (ext : Externals) (cam : Option CameraState)
    (rs : Vec2) (p : GridLayerPatch) :
    (effectiveSettings ext cam rs p).gridDivisions = (mergeSettings p).gridDivisions := by
  by_cases h : (mergeSettings p).rangeMarkerFollowCamera <;> simp [effectiveSettings, h]

/-- C1: every configuration value reaching the geometry generator has its
division count in `[1, 4096]`: the settings-editor clamp (modelled from the
spec) maps any input into that range, and for any stored patch whose
`gridDivisions` respects the clamp, both the merged settings of `#updateGrid`
and the effective settings handed to `createLineList` / `createTexts` carry a
division count `D` with `1 ≤ D ≤ 4096` (the default `10` applies when the
field is absent). -/
theorem c1_division_count_clamped :
    (∀ v : ℚ, 1 ≤ clampFieldValue gridDivisionsFieldMin gridDivisionsFieldMax v ∧
       clampFieldValue gridDivisionsFieldMin gridDivisionsFieldMax v ≤ 4096) ∧
    (∀ p : GridLayerPatch, divisionsInRange p →
       1 ≤ (mergeSettings p).gridDivisions ∧ (mergeSettings p).gridDivisions ≤ 4096) ∧
    (∀ (ext : Externals) (cam : Option CameraState) (rs : Vec2) (p : GridLayerPatch),
       divisionsInRange p →
         1 ≤ (effectiveSettings ext cam rs p).gridDivisions ∧
         (effectiveSettings ext cam rs p).gridDivisions ≤ 4096) := by
  have hmerge : ∀ p : GridLayerPatch, divisionsInRange p →
      1 ≤ (mergeSettings p).gridDivisions ∧ (mergeSettings p).gridDivisions ≤ 4096 := by
    intro p hp
    show 1 ≤ p.gridDivisions.getD DEFAULT_SETTINGS.gridDivisions ∧
      p.gridDivisions.getD DEFAULT_SETTINGS.gridDivisions ≤ 4096
    cases h : p.gridDivisions with
    | none =>
        simp only [Option.getD_none]
        norm_num [DEFAULT_SETTINGS, DEFAULT_GRID_DIVISIONS]
    | some v => simpa using hp v h
  refine ⟨?_, hmerge, ?_⟩
  · intro v
    unfold clampFieldValue gridDivisionsFieldMin gridDivisionsFieldMax MAX_DIVISIONS
    constructor
    · exact le_max_left 1 (min 4096 v)
    · exact max_le (by norm_num) (min_le_left 4096 v)
  · intro ext cam rs p hp
    rw [effectiveSettings_gridDivisions]
    exact hmerge p hp

/-- Witness for C1 at concrete inputs: the clamp pulls `5000` into range, and
the empty patch (division count absent, so defaulted) also merges into
range. -/
theorem c1_witness :
    (1 ≤ clampFieldValue gridDivisionsFieldMin gridDivisionsFieldMax 5000 ∧
      clampFieldValue gridDivisionsFieldMin gridDivisionsFieldMax 5000 ≤ 4096) ∧
    (1 ≤ (mergeSettings emptyPatch).gridDivisions ∧
      (mergeSettings emptyPatch).gridDivisions ≤ 4096) :=
  ⟨c1_division_count_clamped.1 5000,
   c1_division_count_clamped.2.1 emptyPatch (by decide)⟩

/-- C5: a settings-tree action with the wrong segment count — an `update`
whose path length is not 3, or a node action that is not a two-segment
`"delete"` — leaves the whole extension state (config layers and the
instance-id-to-renderable map) unchanged and emits no dispose effect; the
handler is total, so no error is raised. -/
theorem c5_malformed_paths_ignored (ext : Externals) (cam : Option CameraState)
    (rs : Vec2) (action : SettingsTreeAction) (st : GridsState)
    (hupd : ∀ path v, action = SettingsTreeAction.update path v → path.length ≠ 3)
    (hnode : ∀ aid path, action = SettingsTreeAction.performNodeAction aid path →
        ¬(path.length = 2 ∧ aid = "delete")) :
    handleSettingsAction ext cam rs action st = (st, []) := by
  cases action with
  | update path v =>
      simp only [handleSettingsAction]
      rw [if_pos (hupd path v rfl)]
  | performNodeAction aid path =>
      simp only [handleSettingsAction]
      rw [if_neg (hnode aid path rfl)]

/-- Witness for C5: a two-segment `update` path and a three-segment
`"delete"` node action are both ignored on a concrete state. -/
theorem c5_witness :
    handleSettingsAction extWitness none (1, 1)
        (SettingsTreeAction.update ["layers", "g"] (SettingValue.numV 20)) stWitness =
      (stWitness, []) ∧
    handleSettingsAction extWitness none (1, 1)
        (SettingsTreeAction.performNodeAction "delete" ["layers", "g", "x"]) stWitness =
      (stWitness, []) :=
  ⟨c5_malformed_paths_ignored extWitness none (1, 1) _ stWitness
      (fun path v h => by cases h; decide) (fun aid path h => by cases h),
   c5_malformed_paths_ignored extWitness none (1, 1) _ stWitness
      (fun path v h => by cases h) (fun aid path h => by cases h; decide)⟩

/-- C6: deleting (updating with `undefined` settings) an instance id that has
no renderable is a no-op: the state is returned unchanged —
instance-id-to-renderable map included — no dispose effect is emitted, and
the function is total, so no exception is raised. -/
theorem c6_delete_unknown_id_noop (ext : Externals) (cam : Option CameraState)
    (rs : Vec2) (id : String) (st : GridsState)
    (h : lookupKey id st.renderables = none) :
    updateGrid ext cam rs id none st = (st, []) := by
  unfold updateGrid
  rw [h]

/-- Witness for C6: deleting the never-created id `"ghost"` from a concrete
state with one unrelated renderable changes nothing. -/
theorem c6_witness :
    updateGrid extWitness none (1, 1) "ghost" none stWitness = (stWitness, []) :=
  c6_delete_unknown_id_noop extWitness none (1, 1) "ghost" stWitness rfl

/-- C7: when `#updateGrid` runs on an instance id that already has a
renderable, the stored renderable is replaced by `updatedRenderable`, whose
pose is the old pose exactly when both the grid position and the grid
rotation pass the approximate tuple-equality check against the previous
settings, and is freshly recomputed via `xyzrpyToPose` otherwise. -/
theorem c7_pose_recomputed_iff_changed (ext : Externals) (cam : Option CameraState)
    (rs : Vec2) (id : String) (p : GridLayerPatch) (st : GridsState)
    (r : GridRenderableState) (h : lookupKey id st.renderables = some r) :
    lookupKey id ((updateGrid ext cam rs id (some p) st).1).renderables =
      some (updatedRenderable ext cam rs id p (some r)) ∧
    ((ext.vec3TupleApproxEquals (effectiveSettings ext cam rs p).gridPosition
        r.settings.gridPosition = true ∧
      ext.vec3TupleApproxEquals (effectiveSettings ext cam rs p).gridRotation
        r.settings.gridRotation = true) →
        (updatedRenderable ext cam rs id p (some r)).pose = r.pose) ∧
    (¬(ext.vec3TupleApproxEquals (effectiveSettings ext cam rs p).gridPosition
        r.settings.gridPosition = true ∧
      ext.vec3TupleApproxEquals (effectiveSettings ext cam rs p).gridRotation
        r.settings.gridRotation = true) →
        (updatedRenderable ext cam rs id p (some r)).pose =
          ext.xyzrpyToPose (effectiveSettings ext cam rs p).gridPosition
            (effectiveSettings ext cam rs p).gridRotation) := by
  refine ⟨?_, ?_, ?_⟩
  · rw [updateGrid_some_lookup, h]
  · intro hb
    rw [updatedRenderable_pose_existing, hb.1, hb.2]
    rfl
  · intro hb
    rw [updatedRenderable_pose_existing]
    rcases h₁ : ext.vec3TupleApproxEquals (effectiveSettings ext cam rs p).gridPosition
        r.settings.gridPosition with _ | _
    · rfl
    · rcases h₂ : ext.vec3TupleApproxEquals (effectiveSettings ext cam rs p).gridRotation
          r.settings.gridRotation with _ | _
      · rfl
      · exact absurd ⟨h₁, h₂⟩ hb

/-- Witness for C7: updating the existing renderable of `stWitness` with the
empty patch replaces it by the corresponding `updatedRenderable`. -/
theorem c7_witness :
    lookupKey "g" ((updateGrid extWitness none (1, 1) "g" (some emptyPatch) stWitness).1).renderables =
      some (updatedRenderable extWitness none (1, 1) "g" emptyPatch
        (some (createRenderable extWitness "g" DEFAULT_SETTINGS))) :=
  (c7_pose_recomputed_iff_changed extWitness none (1, 1) "g" emptyPatch stWitness
    (createRenderable extWitness "g" DEFAULT_SETTINGS) rfl).1

/-- C8: the per-instance update path is idempotent on the generated geometry:
running `#updateGrid` twice with the identical patch (and identical camera
state and viewport) leaves a renderable whose line-list marker and label
entity after the second run are exactly the values after the first run —
both runs store `createLineList` / `createTexts` of the same effective
settings, so nothing accumulates and no points are duplicated. -/
theorem c8_update_idempotent (ext : Externals) (cam : Option CameraState)
    (rs : Vec2) (id : String) (p : GridLayerPatch) (st : GridsState) :
    ∃ g₁ g₂ : GridRenderableState,
      lookupKey id ((updateGrid ext cam rs id (some p) st).1).renderables = some g₁ ∧
      lookupKey id
          ((updateGrid ext cam rs id (some p)
            ((updateGrid ext cam rs id (some p) st).1)).1).renderables = some g₂ ∧
      g₂.lineList = g₁.lineList ∧ g₂.texts = g₁.texts := by
  refine ⟨_, _, updateGrid_some_lookup .., updateGrid_some_lookup .., ?_, ?_⟩
  · rw [updatedRenderable_lineList, updatedRenderable_lineList]
  · rw [updatedRenderable_texts, updatedRenderable_texts]

theorem jsLoopCount_natCast (d : ℕ) : jsLoopCount (d : ℚ) = d + 1 := by
  unfold jsLoopCount
  rw [Int.floor_natCast]
  omega

theorem createLineListPoints_natCast (S : ℚ) (d : ℕ) :
    createLineListPoints S (d : ℚ) = (List.range (d + 1)).flatMap fun i =>
      [⟨-(S / 2) + i * (S / d), -(S / 2), 0⟩,
       ⟨-(S / 2) + i * (S / d), S / 2, 0⟩,
       ⟨-(S / 2), -(S / 2) + i * (S / d), 0⟩,
       ⟨S / 2, -(S / 2) + i * (S / d), 0⟩] := by
  unfold createLineListPoints
  rw [jsLoopCount_natCast]

/-- C2: for a grid size `S > 0` and an integral division count `D` in
`[1, 4096]`, `createLineList` emits exactly `4 * (D + 1)` points; they are
precisely the `D + 1` lines per axis at the positions `-S/2 + i * (S/D)`
(so consecutive lines are `S/D` apart and the family is centered at the
origin), and every point has both coordinates in `[-S/2, S/2]` — in
particular the constant-axis coordinate — and `z = 0`. -/
theorem c2_createLineList_geometry (f : Rgba → String → Rgba)
    (s : LayerSettingsGrid) (d : ℕ) (hd : s.gridDivisions = (d : ℚ))
    (hd1 : 1 ≤ d) (hd2 : d ≤ 4096) (hS : 0 < s.gridSize) :
    (createLineList f s).points.length = 4 * (d + 1) ∧
    (createLineList f s).points = ((List.range (d + 1)).flatMap fun i =>
      [⟨-(s.gridSize / 2) + i * (s.gridSize / d), -(s.gridSize / 2), 0⟩,
       ⟨-(s.gridSize / 2) + i * (s.gridSize / d), s.gridSize / 2, 0⟩,
       ⟨-(s.gridSize / 2), -(s.gridSize / 2) + i * (s.gridSize / d), 0⟩,
       ⟨s.gridSize / 2, -(s.gridSize / 2) + i * (s.gridSize / d), 0⟩]) ∧
    ∀ q ∈ (createLineList f s).points,
      -(s.gridSize / 2) ≤ q.x ∧ q.x ≤ s.gridSize / 2 ∧
      -(s.gridSize / 2) ≤ q.y ∧ q.y ≤ s.gridSize / 2 ∧ q.z = 0 := by
  have hpts : (createLineList f s).points = ((List.range (d + 1)).flatMap fun i =>
      [⟨-(s.gridSize / 2) + i * (s.gridSize / d), -(s.gridSize / 2), 0⟩,
       ⟨-(s.gridSize / 2) + i * (s.gridSize / d), s.gridSize / 2, 0⟩,
       ⟨-(s.gridSize / 2), -(s.gridSize / 2) + i * (s.gridSize / d), 0⟩,
       ⟨s.gridSize / 2, -(s.gridSize / 2) + i * (s.gridSize / d), 0⟩]) := by
    show createLineListPoints s.gridSize s.gridDivisions = _
    rw [hd, createLineListPoints_natCast]
  refine ⟨?_, hpts, ?_⟩
  · rw [hpts, List.length_flatMap]
    simp [Function.comp_def]
    ring
  · intro q hq
    rw [hpts] at hq
    obtain ⟨i, hi, hq⟩ := List.mem_flatMap.mp hq
    have hid : (i : ℚ) ≤ (d : ℚ) := by
      exact_mod_cast Nat.lt_succ_iff.mp (List.mem_range.mp hi)
    have hd0 : (0 : ℚ) < (d : ℚ) := by exact_mod_cast Nat.lt_of_lt_of_le Nat.zero_lt_one hd1
    have hstep0 : 0 ≤ s.gridSize / (d : ℚ) := by positivity
    have hmul0 : 0 ≤ (i : ℚ) * (s.gridSize / d) := by positivity
    have hdS : (d : ℚ) * (s.gridSize / d) = s.gridSize := by field_simp
    have hmul1 : (i : ℚ) * (s.gridSize / d) ≤ s.gridSize := by
      calc (i : ℚ) * (s.gridSize / d) ≤ (d : ℚ) * (s.gridSize / d) :=
            mul_le_mul_of_nonneg_right hid hstep0
        _ = s.gridSize := hdS
    simp only [List.mem_cons, List.not_mem_nil, or_false] at hq
    rcases hq with rfl | rfl | rfl | rfl <;>
      exact ⟨by dsimp; linarith, by dsimp; linarith, by dsimp; linarith,
             by dsimp; linarith, rfl⟩

/-- C3 counterexample: the claim quantifies over every settings record, but
with the range markers visible and a negative division count (`-1`, a value
the settings clamp normally rules out) the generator loop runs zero times,
so the label sequence is empty even though the visibility flag is `true`:
the claimed equivalence fails at `c3Settings`. -/
theorem c3_counterexample :
    ¬ (((createTexts extWitness.stringToRgba c3Settings).texts = []) ↔
        c3Settings.rangeMarkerVisible = false) := by
  intro h
  have h₁ : (createTexts extWitness.stringToRgba c3Settings).texts = [] := by
    show createTextsList extWitness.stringToRgba c3Settings = []
    have hloop : jsLoopCount c3Settings.gridDivisions = 0 := by
      show (⌊(-1 : ℚ)⌋ + 1).toNat = 0
      norm_num
    unfold createTextsList
    rw [hloop]
    simp
  have h₂ := h.mp h₁
  simp [c3Settings] at h₂

/-- C3 (amended to division counts that are nonnegative integers, as every
count passing the settings clamp is): `createTexts` returns an empty label
sequence iff the range-marker visibility flag is false, and when the flag is
true it returns exactly `2 * (D + 1)` labels — two per grid line, one per
axis — whose text is the rounded integer distance from the origin
(`toFixed(0)` of the line coordinate offset by the grid position). -/
theorem c3_createTexts_labels (f : Rgba → String → Rgba) (s : LayerSettingsGrid)
    (d : ℕ) (hd : s.gridDivisions = (d : ℚ)) :
    (((createTexts f s).texts = []) ↔ s.rangeMarkerVisible = false) ∧
    (s.rangeMarkerVisible = true →
      (createTexts f s).texts.length = 2 * (d + 1) ∧
      (createTexts f s).texts = ((List.range (d + 1)).flatMap fun i =>
        [{ pose := { position := ⟨-(s.gridSize / 2) + i * (s.gridSize / d),
                                  -s.rangeMarkerPosition.2 - s.gridPosition.2.1, 0⟩
                     orientation := ⟨0, 0, 0, 1⟩ }
           billboard := true
           font_size := s.rangeMarkerFontSize
           scale_invariant := true
           color := f ⟨1, 1, 1, 1⟩ s.rangeMarkerFontColor
           text := toFixed0 (-(s.gridSize / 2) + i * (s.gridSize / d) + s.gridPosition.1) },
         { pose := { position := ⟨s.rangeMarkerPosition.1 - s.gridPosition.1,
                                  -(s.gridSize / 2) + i * (s.gridSize / d), 0⟩
                     orientation := ⟨0, 0, 0, 1⟩ }
           billboard := true
           font_size := s.rangeMarkerFontSize
           scale_invariant := true
           color := f ⟨1, 1, 1, 1⟩ s.rangeMarkerFontColor
           text := toFixed0 (-(s.gridSize / 2) + i * (s.gridSize / d)
             + s.gridPosition.2.1) }])) := by
  have hlist : s.rangeMarkerVisible = true →
      createTextsList f s = ((List.range (d + 1)).flatMap fun i =>
        [{ pose := { position := ⟨-(s.gridSize / 2) + i * (s.gridSize / d),
                                  -s.rangeMarkerPosition.2 - s.gridPosition.2.1, 0⟩
                     orientation := ⟨0, 0, 0, 1⟩ }
           billboard := true
           font_size := s.rangeMarkerFontSize
           scale_invariant := true
           color := f ⟨1, 1, 1, 1⟩ s.rangeMarkerFontColor
           text := toFixed0 (-(s.gridSize / 2) + i * (s.gridSize / d) + s.gridPosition.1) },
         { pose := { position := ⟨s.rangeMarkerPosition.1 - s.gridPosition.1,
                                  -(s.gridSize / 2) + i * (s.gridSize / d), 0⟩
                     orientation := ⟨0, 0, 0, 1⟩ }
           billboard := true
           font_size := s.rangeMarkerFontSize
           scale_invariant := true
           color := f ⟨1, 1, 1, 1⟩ s.rangeMarkerFontColor
           text := toFixed0 (-(s.gridSize / 2) + i * (s.gridSize / d)
             + s.gridPosition.2.1) }]) := by
    intro hv
    unfold createTextsList
    rw [hv, hd, jsLoopCount_natCast]
    rfl
  have htex : (createTexts f s).texts = createTextsList f s := rfl
  cases hv : s.rangeMarkerVisible with
  | false =>
      have hnil : (createTexts f s).texts = [] := by
        rw [htex]
        unfold createTextsList
        rw [hv]
        simp
      exact ⟨by simp [hnil], fun h => absurd h (by decide)⟩
  | true =>
      have hlen : (createTexts f s).texts.length = 2 * (d + 1) := by
        rw [htex, hlist hv, List.length_flatMap]
        simp [Function.comp_def]
        ring
      refine ⟨?_, fun _ => ⟨hlen, by rw [htex, hlist hv]⟩⟩
      refine iff_of_false ?_ (by decide)
      intro hnil
      rw [hnil] at hlen
      simp at hlen

/-- Witness for C3 at the default-sized grid with markers visible
(`D = 10`): exactly `22` labels. -/
theorem c3_witness :
    (createTexts extWitness.stringToRgba c3WitnessSettings).texts.length = 2 * (10 + 1) :=
  ((c3_createTexts_labels extWitness.stringToRgba c3WitnessSettings 10
      (by norm_num [c3WitnessSettings, DEFAULT_SETTINGS, DEFAULT_GRID_DIVISIONS])).2 rfl).1

/-- Witness for C2 at the default settings (`S = 10 > 0`, `D = 10`): the
generator emits `44` points. -/
theorem c2_witness :
    (createLineList extWitness.stringToRgba DEFAULT_SETTINGS).points.length = 4 * (10 + 1) :=
  (c2_createLineList_geometry extWitness.stringToRgba DEFAULT_SETTINGS 10
    (by norm_num [DEFAULT_SETTINGS, DEFAULT_GRID_DIVISIONS]) (by norm_num) (by norm_num)
    (by norm_num [DEFAULT_SETTINGS, DEFAULT_GRID_SIZE])).1

/-- C4: with a camera state available, `#nudgeRangeMarkersIntoView` returns
the component-wise maximum of the viewport-derived bound (from
`sin(fovy/2) * distance`, the aspect ratio, the target offset and the
configured nudge) and the grid-derived bound (from grid position, size and
divisions) — and at the concrete inputs `distance = 10`, `fovy = 90`,
`aspectRatio = 1`, `nudge = [0,0]`, `gridSize = 10`, `gridDivisions = 10`
(grid at the origin) the x-component is `max (sin 45 * 10) (-11/2)`, the
hand-computed values of the two formulas (`Math.sin` stays abstract). -/
theorem c4_rangeMarker_bound_is_componentwise_max :
    (∀ (sinFn : ℚ → ℚ) (cam : CameraState) (rs : Vec2) (s : LayerSettingsGrid),
      nudgeRangeMarkersIntoView sinFn (some cam) rs s =
        (max (sinFn (cam.fovy / 2) * cam.distance + cam.targetOffset.1 +
                s.rangeMarkerFollowCameraNudge.1)
             (s.gridPosition.1 - s.gridSize / 2 - 0.5 * s.gridSize / s.gridDivisions),
         max (sinFn (cam.fovy / 2) * cam.distance * (rs.1 / rs.2) - cam.targetOffset.2.1 +
                s.rangeMarkerFollowCameraNudge.2)
             (-s.gridPosition.2.1 - s.gridSize / 2 - 0.5 * s.gridSize / s.gridDivisions))) ∧
    (∀ sinFn : ℚ → ℚ,
      nudgeRangeMarkersIntoView sinFn (some ⟨10, 90, (0, 0, 0)⟩) (1, 1) c4Settings =
        (max (sinFn 45 * 10) (-(11 / 2)), max (sinFn 45 * 10) (-(11 / 2)))) := by
  have hmax : ∀ a b : ℚ, (if a > b then a else b) = max a b := by
    intro a b
    rcases le_or_lt a b with h | h
    · rw [if_neg (not_lt.mpr h), max_eq_right h]
    · rw [if_pos h, max_eq_left h.le]
  have h₁ : ∀ (sinFn : ℚ → ℚ) (cam : CameraState) (rs : Vec2) (s : LayerSettingsGrid),
      nudgeRangeMarkersIntoView sinFn (some cam) rs s =
        (max (sinFn (cam.fovy / 2) * cam.distance + cam.targetOffset.1 +
                s.rangeMarkerFollowCameraNudge.1)
             (s.gridPosition.1 - s.gridSize / 2 - 0.5 * s.gridSize / s.gridDivisions),
         max (sinFn (cam.fovy / 2) * cam.distance * (rs.1 / rs.2) - cam.targetOffset.2.1 +
                s.rangeMarkerFollowCameraNudge.2)
             (-s.gridPosition.2.1 - s.gridSize / 2 - 0.5 * s.gridSize / s.gridDivisions)) := by
    intro sinFn cam rs s
    simp only [nudgeRangeMarkersIntoView]
    rw [hmax, hmax]
  refine ⟨h₁, fun sinFn => ?_⟩
  rw [h₁]
  norm_num [c4Settings, DEFAULT_SETTINGS, DEFAULT_GRID_SIZE, DEFAULT_GRID_DIVISIONS,
    DEFAULT_RANGE_MARKER_FOLLOW_CAMERA_NUDGE]

theorem rangeMarkersStep_layers (ext : Externals) (cam : Option CameraState)
    (rs : Vec2) (fc : Bool) (id : String) (st : GridsState) :
    ((rangeMarkersStep ext cam rs fc id st).1).layers =
      saveSettingLayers ["layers", id, "rangeMarkerFollowCamera"] (SettingValue.boolV fc)
        (saveSettingLayers ["layers", id, "rangeMarkerFollowCameraNudge"]
          (SettingValue.vec2V (0, 0))
          (saveSettingLayers ["layers", id, "rangeMarkerVisible"]
            (SettingValue.boolV true) st.layers)) := by
  unfold rangeMarkersStep
  rw [updateGrid_layers]

theorem rangeMarkersStep_layerAt_self (ext : Externals) (cam : Option CameraState)
    (rs : Vec2) (fc : Bool) (id : String) (st : GridsState) :
    layerAt ((rangeMarkersStep ext cam rs fc id st).1).layers id =
      some (setConfigField (setConfigField (setConfigField
        ((layerAt st.layers id).getD emptyPatch)
        "rangeMarkerVisible" (SettingValue.boolV true))
        "rangeMarkerFollowCameraNudge" (SettingValue.vec2V (0, 0)))
        "rangeMarkerFollowCamera" (SettingValue.boolV fc)) := by
  rw [rangeMarkersStep_layers, layerAt_saveSetting_self, layerAt_saveSetting_self,
    layerAt_saveSetting_self]
  simp only [Option.getD_some]

theorem rangeMarkersStep_fields (ext : Externals) (cam : Option CameraState)
    (rs : Vec2) (fc : Bool) (id : String) (st : GridsState) :
    ∃ p : GridLayerPatch,
      layerAt ((rangeMarkersStep ext cam rs fc id st).1).layers id = some p ∧
      p.rangeMarkerVisible = some true ∧
      p.rangeMarkerFollowCameraNudge = some (0, 0) ∧
      p.rangeMarkerFollowCamera = some fc :=
  ⟨_, rangeMarkersStep_layerAt_self ext cam rs fc id st, rfl, rfl, rfl⟩

theorem rangeMarkersStep_layerAt_ne (ext : Externals) (cam : Option CameraState)
    (rs : Vec2) (fc : Bool) {id id₂ : String} (h : id ≠ id₂) (st : GridsState) :
    layerAt ((rangeMarkersStep ext cam rs fc id st).1).layers id₂ =
      layerAt st.layers id₂ := by
  rw [rangeMarkersStep_layers, layerAt_saveSetting_ne h, layerAt_saveSetting_ne h,
    layerAt_saveSetting_ne h]

theorem rangeMarkersLoop_layerAt_notmem (ext : Externals) (cam : Option CameraState)
    (rs : Vec2) (fc : Bool) (l : List (String × Option GridLayerPatch)) (id : String)
    (h : ∀ q ∈ l, q.1 ≠ id) (st : GridsState) :
    layerAt ((rangeMarkersLoop ext cam rs fc l st).1).layers id = layerAt st.layers id := by
  induction l generalizing st with
  | nil => rfl
  | cons hd tl ih =>
      obtain ⟨k, e⟩ := hd
      have hk : k ≠ id := h (k, e) (List.mem_cons_self ..)
      have htl : ∀ q ∈ tl, q.1 ≠ id := fun q hq => h q (List.mem_cons_of_mem _ hq)
      cases e with
      | none => exact ih htl st
      | some e₂ =>
          simp only [rangeMarkersLoop]
          by_cases hg : e₂.layerId = some LAYER_ID
          · rw [if_pos hg]
            dsimp only
            rw [ih htl, rangeMarkersStep_layerAt_ne ext cam rs fc hk]
          · rw [if_neg hg]
            exact ih htl st

/-- C9: when the `rangeMarkersConfigChanged` event fires, every grid layer of
the config (keys distinct, as JS object keys are) ends up with
`rangeMarkerVisible` overwritten to `true`, `rangeMarkerFollowCameraNudge`
reset to `[0, 0]`, and `rangeMarkerFollowCamera` set to the event's
`followCamera` flag, whatever those fields held before. -/
theorem c9_rangeMarkers_config_overwrites (ext : Externals) (cam : Option CameraState)
    (rs : Vec2) (rmc : RangeMarkersConfig) (st : GridsState)
    (hnd : (st.layers.map Prod.fst).Nodup) (id : String) (e : GridLayerPatch)
    (hmem : (id, some e) ∈ st.layers) (hgrid : e.layerId = some LAYER_ID) :
    ∃ p : GridLayerPatch,
      layerAt ((handleRangeMarkersConfigChanged ext cam rs rmc st).1).layers id = some p ∧
      p.rangeMarkerVisible = some true ∧
      p.rangeMarkerFollowCameraNudge = some (0, 0) ∧
      p.rangeMarkerFollowCamera = some rmc.followCamera := by
  suffices hloop : ∀ (l : List (String × Option GridLayerPatch)) (st₀ : GridsState),
      (l.map Prod.fst).Nodup → (id, some e) ∈ l →
      ∃ p : GridLayerPatch,
        layerAt ((rangeMarkersLoop ext cam rs rmc.followCamera l st₀).1).layers id = some p ∧
        p.rangeMarkerVisible = some true ∧
        p.rangeMarkerFollowCameraNudge = some (0, 0) ∧
        p.rangeMarkerFollowCamera = some rmc.followCamera by
    exact hloop st.layers st hnd hmem
  intro l
  induction l with
  | nil => intro st₀ _ hmem₀; cases hmem₀
  | cons hd tl ih =>
      intro st₀ hnd₀ hmem₀
      obtain ⟨k, e₀⟩ := hd
      rcases List.mem_cons.mp hmem₀ with heq | hmem₂
      · injection heq with h₁ h₂
        subst h₁
        subst h₂
        simp only [rangeMarkersLoop]
        rw [if_pos hgrid]
        dsimp only
        have hknotin : ∀ q ∈ tl, q.1 ≠ id := by
          intro q hq hqid
          have hq₂ : q.1 ∈ tl.map Prod.fst := List.mem_map_of_mem Prod.fst hq
          rw [hqid] at hq₂
          exact (List.nodup_cons.mp hnd₀).1 hq₂
        rw [rangeMarkersLoop_layerAt_notmem ext cam rs rmc.followCamera tl id hknotin]
        exact rangeMarkersStep_fields ext cam rs rmc.followCamera id st₀
      · have hnd₂ : (tl.map Prod.fst).Nodup := (List.nodup_cons.mp hnd₀).2
        cases e₀ with
        | none => exact ih st₀ hnd₂ hmem₂
        | some e₂ =>
            simp only [rangeMarkersLoop]
            by_cases hg : e₂.layerId = some LAYER_ID
            · rw [if_pos hg]
              dsimp only
              exact ih _ hnd₂ hmem₂
            · rw [if_neg hg]
              exact ih st₀ hnd₂ hmem₂

/-- Witness for C9: firing the handler with `followCamera = true` on a state
holding the single grid layer `"g"` overwrites its three range-marker
fields. -/
theorem c9_witness :
    ∃ p : GridLayerPatch,
      layerAt ((handleRangeMarkersConfigChanged extWitness none (1, 1) ⟨true⟩
        stWitness).1).layers "g" = some p ∧
      p.rangeMarkerVisible = some true ∧
      p.rangeMarkerFollowCameraNudge = some (0, 0) ∧
      p.rangeMarkerFollowCamera = some true :=
  c9_rangeMarkers_config_overwrites extWitness none (1, 1) ⟨true⟩ stWitness
    (by simp [stWitness]) "g" gridPatchWitness (List.mem_cons_self ..) rfl

/-- C10: the `removeAllRenderables` override is a no-op: the state — the
instance-id-to-renderable map, the scene membership list, and with them every
renderable's owned sub-objects — is returned unchanged, and no dispose
effect is emitted. -/
theorem c10_removeAllRenderables_noop (st : GridsState) :
    removeAllRenderables st = (st, []) ∧
    (removeAllRenderables st).1.renderables = st.renderables ∧
    (removeAllRenderables st).1.scene = st.scene ∧
    (removeAllRenderables st).2 = [] :=
  ⟨rfl, rfl, rfl, rfl⟩

end Grids
